import Mathlib

/-!
Verification of `code/brain_extraction.py` (a thin orchestration script around
the external FSL BET brain-extraction tool).

The script is shallowly embedded: every filesystem or subprocess effect is
represented explicitly.  A `World` packages the observable environment (the
set of existing files, the behaviour of the `bet` subprocess, the environment
variables, the behaviour of reads of the FSL version file, and the running
interpreter's version string).  Functions of the script become pure Lean
functions over a `World`, returning an `Except PyError` result together with a
trace of emitted `Event`s (log lines, directory creations, subprocess
invocations, metadata writes).  Python exceptions are modelled by the
`PyError` type; Python string operations used by the script (`str.replace`,
`str.endswith`, f-string path joining with `/`, `datetime.isoformat`,
`datetime.fromisoformat`) are modelled by executable Lean functions that follow
the Python semantics.
-/

/-! ### Python string primitives -/

/-- Python `str.endswith(suff)`: `suff` is a suffix of `s`. -/
def pyEndsWith (s suff : String) : Bool :=
  decide (suff.data <:+ s.data)

/-- Worker for `pyReplace`, structurally recursive on a fuel argument that is
always at least the length of the scanned list.  At each position: if `old`
matches here, emit `new` and skip `old.length` characters, otherwise keep one
character and move on.  This is the leftmost, non-overlapping scan performed
by Python's `str.replace`. -/
def pyReplaceAux : Nat → List Char → List Char → List Char → List Char
  | 0, s, _, _ => s
  | _ + 1, [], _, _ => []
  | fuel + 1, c :: s, old, new =>
    if old.isPrefixOf (c :: s) then
      new ++ pyReplaceAux fuel ((c :: s).drop old.length) old new
    else
      c :: pyReplaceAux fuel s old new

/-- Python `s.replace(old, new)` for nonempty `old`: replaces every leftmost
non-overlapping occurrence of `old` in `s` by `new`. -/
def pyReplace (s old new : String) : String :=
  String.mk (pyReplaceAux s.data.length s.data old.data new.data)

/-- `pathlib` `/` join used by the script: it simply inserts a `/` separator. -/
def pjoin (a b : String) : String :=
  a ++ "/" ++ b

/-! ### Python exceptions raised by the script -/

/-- The Python exceptions that `brain_extraction.py` can raise, each carrying
its message. `osError` stands for any other exception re-raised from the BET
subprocess call (the bare `raise` in `run_bet`). -/
inductive PyError where
  | fileNotFound (msg : String)
  | valueError (msg : String)
  | runtimeError (msg : String)
  | osError (msg : String)
deriving DecidableEq, Repr

/-- The Python exception class name of a `PyError`. -/
def PyError.kind : PyError → String
  | .fileNotFound _ => "FileNotFoundError"
  | .valueError _ => "ValueError"
  | .runtimeError _ => "RuntimeError"
  | .osError _ => "OSError"

/-- The exception class raised by a computation, `none` if it returned. -/
def exceptKind {α : Type} : Except PyError α → Option String
  | .ok _ => none
  | .error e => some e.kind

/-! ### Observable events emitted by the script -/

/-- Observable side effects of the script, in emission order: a log line, a
`mkdir(parents=True, exist_ok=True)` call, a subprocess invocation with its
argument vector, and the write of the metadata JSON file. -/
inductive Event where
  | log (msg : String)
  | mkdirP (path : String)
  | subproc (cmd : List String)
  | writeMeta (path : String) (timestamp : String)
deriving DecidableEq, Repr

/-- The argument vectors of the subprocess invocations in a trace. -/
def subprocCmds (evs : List Event) : List (List String) :=
  evs.filterMap fun e =>
    match e with
    | .subproc c => some c
    | _ => none

/-! ### validate_input -/

/-- Embedding of `validate_input` (brain_extraction.py lines 56-66).  `fs` is
the set of existing files.  Returns the result (`True` or the raised
exception) together with the log lines the call emitted, in order:

    if not input_path.exists(): raise FileNotFoundError(...)
    if not str(input_path).endswith(('.nii', '.nii.gz')): raise ValueError(...)
    logger.info(f"Input file validated: ...")
    return True
-/
def validate_input (fs : List String) (input_path : String) :
    Except PyError Bool × List String :=
  if input_path ∈ fs then
    if pyEndsWith input_path ".nii" || pyEndsWith input_path ".nii.gz" then
      (Except.ok true, ["Input file validated: " ++ input_path])
    else
      (Except.error (PyError.valueError
        ("Input must be a NIfTI file (.nii or .nii.gz), got: " ++ input_path)), [])
  else
    (Except.error (PyError.fileNotFound ("Input file not found: " ++ input_path)), [])

/-! ### run_bet -/

/-- Outcome of the `subprocess.run` call for the main BET invocation:
either the process completed with a return code, captured output streams and
a resulting set of files on disk, or the call itself raised
(e.g. `FileNotFoundError` when the executable is missing). -/
inductive BetOutcome where
  | completed (returncode : Int) (stdout stderr : String) (files : List String)
  | raised (msg : String)

/-- Embedding of line 90 of `run_bet`:

    output_base = str(output_file).replace('.nii.gz', '').replace('.nii', '')

Note that Python's `str.replace` removes every occurrence of the pattern, not
just a trailing extension. -/
def pyOutputBase (output_file : String) : String :=
  pyReplace (pyReplace output_file ".nii.gz" "") ".nii" ""

/-- Embedding of line 95 of `run_bet`:

    cmd = ['bet', str(input_file), output_base, '-f', str(fractional_intensity), '-R']

The fractional-intensity threshold is modelled by its rendered string
(`str(fractional_intensity)`). -/
def bet_command (input_file output_file fi : String) : List String :=
  ["bet", input_file, pyOutputBase output_file, "-f", fi, "-R"]

/-- Embedding of `run_bet` (brain_extraction.py lines 68-132).  `run` gives the
behaviour of the (unique) subprocess call.  On completion with return code 0
the two candidate output paths `<base>.nii.gz` and `<base>.nii` are probed in
the resulting file set; on a non-zero return code `subprocess.run(check=True)`
raises `CalledProcessError`, which the script turns into a `RuntimeError`
carrying the captured standard error; if the call itself raised, the generic
handler logs and re-raises. -/
def run_bet (run : List String → BetOutcome) (input_file output_file fi : String) :
    Except PyError String × List Event :=
  let base := pyOutputBase output_file
  let cmd := bet_command input_file output_file fi
  let ev0 := [Event.log ("Running FSL BET on: " ++ input_file),
              Event.log ("Fractional intensity threshold: " ++ fi),
              Event.log ("Command: " ++ String.intercalate " " cmd),
              Event.subproc cmd]
  match run cmd with
  | BetOutcome.completed rc _ err files =>
    if rc = 0 then
      if (base ++ ".nii.gz") ∈ files then
        (Except.ok (base ++ ".nii.gz"),
         ev0 ++ [Event.log "BET completed successfully",
                 Event.log ("Output saved to: " ++ (base ++ ".nii.gz"))])
      else if (base ++ ".nii") ∈ files then
        (Except.ok (base ++ ".nii"),
         ev0 ++ [Event.log "BET completed successfully",
                 Event.log ("Output saved to: " ++ (base ++ ".nii"))])
      else
        (Except.error (PyError.fileNotFound ("BET output file not found: " ++ base)),
         ev0 ++ [Event.log "BET completed successfully"])
    else
      (Except.error (PyError.runtimeError ("Brain extraction failed: " ++ err)),
       ev0 ++ [Event.log ("BET failed with error: " ++ err)])
  | BetOutcome.raised msg =>
    (Except.error (PyError.osError msg),
     ev0 ++ [Event.log ("Unexpected error during BET: " ++ msg)])

/-! ### Python datetimes: isoformat and fromisoformat -/

/-- A Python `datetime` value, as produced by `datetime.now()`. -/
structure PyDateTime where
  year : Nat
  month : Nat
  day : Nat
  hour : Nat
  minute : Nat
  second : Nat
  microsecond : Nat
deriving DecidableEq, Repr

/-- The field ranges guaranteed by Python's `datetime` constructor. -/
def PyDateTime.valid (d : PyDateTime) : Prop :=
  1 ≤ d.year ∧ d.year ≤ 9999 ∧ 1 ≤ d.month ∧ d.month ≤ 12 ∧
  1 ≤ d.day ∧ d.day ≤ 31 ∧ d.hour ≤ 23 ∧ d.minute ≤ 59 ∧
  d.second ≤ 59 ∧ d.microsecond ≤ 999999

instance (d : PyDateTime) : Decidable d.valid := by
  unfold PyDateTime.valid
  infer_instance

/-- The decimal digit characters used by Python's zero-padded rendering. -/
def digitChar (d : Nat) : Char :=
  match d with
  | 0 => '0' | 1 => '1' | 2 => '2' | 3 => '3' | 4 => '4'
  | 5 => '5' | 6 => '6' | 7 => '7' | 8 => '8' | _ => '9'

/-- The numeric value of a decimal digit character. -/
def digitVal (c : Char) : Nat :=
  c.toNat - 48

/-- Whether a character is a decimal digit. -/
def isDigitB (c : Char) : Bool :=
  decide (48 ≤ c.toNat) && decide (c.toNat ≤ 57)

/-- Zero-padded fixed-width decimal rendering (`'%04d' % n` and friends). -/
def padNum : Nat → Nat → List Char
  | 0, _ => []
  | w + 1, n => padNum w (n / 10) ++ [digitChar (n % 10)]

/-- Value of a digit string, most significant digit first. -/
def digitsVal (l : List Char) : Nat :=
  l.foldl (fun a c => 10 * a + digitVal c) 0

/-- The microseconds part of `datetime.isoformat()`: printed as `.ffffff`
when nonzero and omitted entirely when zero. -/
def microSuffix (us : Nat) : List Char :=
  if us = 0 then [] else '.' :: padNum 6 us

/-- Python `datetime.isoformat()`:
`YYYY-MM-DDTHH:MM:SS` followed by `.ffffff` when the microsecond field is
nonzero. -/
def isoformat (d : PyDateTime) : String :=
  String.mk
    (padNum 4 d.year ++ '-' ::
      (padNum 2 d.month ++ '-' ::
        (padNum 2 d.day ++ 'T' ::
          (padNum 2 d.hour ++ ':' ::
            (padNum 2 d.minute ++ ':' ::
              (padNum 2 d.second ++ microSuffix d.microsecond))))))

/-- Consume a fixed-width run of digits and return its value and the rest. -/
def parseFixed (w : Nat) (l : List Char) : Option (Nat × List Char) :=
  let pre := l.take w
  if pre.length = w ∧ pre.all isDigitB then some (digitsVal pre, l.drop w) else none

/-- Consume one expected separator character. -/
def expectChar (c : Char) : List Char → Option (List Char)
  | x :: rest => if x = c then some rest else none
  | [] => none

/-- Parse the optional fractional-seconds tail of an ISO timestamp. -/
def parseMicro : List Char → Option Nat
  | [] => some 0
  | '.' :: rest =>
    (parseFixed 6 rest).bind fun p => if p.2 = [] then some p.1 else none
  | _ => none

/-- Final range validation performed by `datetime.fromisoformat` (which raises
on out-of-range components). -/
def mkValidated (y mo da h mi s us : Nat) : Option PyDateTime :=
  let d : PyDateTime := ⟨y, mo, da, h, mi, s, us⟩
  if d.valid then some d else none

/-- Model of Python `datetime.fromisoformat`, restricted to the grammar of
strings `isoformat` emits: `YYYY-MM-DDTHH:MM:SS` with optional `.ffffff`. -/
def fromisoformat (s : String) : Option PyDateTime :=
  (parseFixed 4 s.data).bind fun py =>
  (expectChar '-' py.2).bind fun r1 =>
  (parseFixed 2 r1).bind fun pmo =>
  (expectChar '-' pmo.2).bind fun r2 =>
  (parseFixed 2 r2).bind fun pda =>
  (expectChar 'T' pda.2).bind fun r3 =>
  (parseFixed 2 r3).bind fun ph =>
  (expectChar ':' ph.2).bind fun r4 =>
  (parseFixed 2 r4).bind fun pmi =>
  (expectChar ':' pmi.2).bind fun r5 =>
  (parseFixed 2 r5).bind fun ps =>
  (parseMicro ps.2).bind fun us =>
  mkValidated py.1 pmo.1 pda.1 ph.1 pmi.1 ps.1 us

/-! ### World: the observable environment -/

/-- Outcome of the best-effort `subprocess.run(['bet', '-V'], ..., timeout=5)`
probe in `save_metadata`: either it completed with a return code and captured
standard output, or the call raised (missing executable, timeout, ...). -/
inductive ProbeOutcome where
  | completed (returncode : Int) (stdout : String)
  | raised

/-- Outcome of `open(version_file).read()`: the file content, or a raise. -/
inductive ReadOutcome where
  | ok (content : String)
  | raised
deriving DecidableEq, Repr

/-- The observable environment of one run of the script. -/
structure World where
  /-- The set of existing file paths. -/
  files : List String
  /-- Behaviour of the main BET subprocess invocation. -/
  run : List String → BetOutcome
  /-- Behaviour of the `bet -V` version probe. -/
  betVersionProbe : ProbeOutcome
  /-- `os.environ`, as an association list. -/
  env : List (String × String)
  /-- Behaviour of reading a file's content. -/
  readFile : String → ReadOutcome
  /-- `sys.version.split()[0]`. -/
  pythonVersion : String

/-- First-match lookup in an association list (Python `dict` access for the
insertion-ordered, duplicate-free dictionaries built by the script, and the
`'FSLDIR' in os.environ` / `os.environ['FSLDIR']` pattern). -/
def lookupKV (k : String) : List (String × String) → Option String
  | [] => none
  | (k2, v) :: rest => if k2 = k then some v else lookupKV k rest

/-! ### save_metadata -/

/-- The `parameters` dictionary built by `process_subject`.  The float value
is modelled by its rendered string. -/
structure Params where
  fractional_intensity : String
  subject_id : String
deriving DecidableEq, Repr

/-- The metadata record serialized to `processing_metadata.json`.  The
`software_versions` sub-dictionary is an insertion-ordered association list. -/
structure Metadata where
  timestamp : String
  script_version : String
  author : String
  lab : String
  input_file : String
  output_file : String
  parameters : Params
  software_versions : List (String × String)

/-- Path of the FSL version file probed as a fallback:
`Path(os.environ['FSLDIR']) / 'etc' / 'fslversion'`. -/
def fslVersionPath (fsldir : String) : String :=
  pjoin (pjoin fsldir "etc") "fslversion"

/-- Embedding of the version-detection block of `save_metadata`
(brain_extraction.py lines 150-167):

    try:
        result = subprocess.run(['bet', '-V'], ..., timeout=5)
        if result.returncode == 0:
            metadata['software_versions']['fsl_bet'] = result.stdout.strip()
    except:
        try:
            if 'FSLDIR' in os.environ:
                version_file = Path(os.environ['FSLDIR']) / 'etc' / 'fslversion'
                if version_file.exists():
                    with open(version_file) as f:
                        metadata['software_versions']['fsl'] = f.read().strip()
        except:
            metadata['software_versions']['fsl'] = 'unknown'

The outer `except` only runs when the probe call itself raises; a probe that
completes with a non-zero return code adds no entry at all.  The `'unknown'`
sentinel is only written when the inner `try` body raises, i.e. when `FSLDIR`
is set, the version file exists, and reading it raises. -/
def fsl_version_entries (w : World) : List (String × String) :=
  match w.betVersionProbe with
  | ProbeOutcome.completed rc out =>
    if rc = 0 then [("fsl_bet", out.trim)] else []
  | ProbeOutcome.raised =>
    match lookupKV "FSLDIR" w.env with
    | none => []
    | some fsldir =>
      if fslVersionPath fsldir ∈ w.files then
        match w.readFile (fslVersionPath fsldir) with
        | ReadOutcome.ok content => [("fsl", content.trim)]
        | ReadOutcome.raised => [("fsl", "unknown")]
      else []

/-- Embedding of `save_metadata` (brain_extraction.py lines 135-177): builds
the metadata record and the path it is written to
(`output_dir / 'processing_metadata.json'`).  The version-detection block
never raises, so the function is total: it returns the written path and
record for every world. -/
def save_metadata (w : World) (output_dir input_file output_file : String)
    (parameters : Params) (now : PyDateTime) : String × Metadata :=
  let m : Metadata :=
    { timestamp := isoformat now
      script_version := "1.0.0"
      author := "Tara Neddersen"
      lab := "Knowles Lab, Stanford University Department of Neurology"
      input_file := input_file
      output_file := output_file
      parameters := parameters
      software_versions := fsl_version_entries w ++ [("python", w.pythonVersion)] }
  (pjoin output_dir "processing_metadata.json", m)

/-! ### process_subject -/

/-- Embedding of line 196 of `process_subject`:

    input_file = bids_dir / f'sub-{subject_id}' / 'anat' / f'sub-{subject_id}_T1w.nii.gz'
-/
def subject_input_path (bids_dir subject_id : String) : String :=
  pjoin (pjoin (pjoin bids_dir ("sub-" ++ subject_id)) "anat")
    ("sub-" ++ subject_id ++ "_T1w.nii.gz")

/-- Embedding of line 202 of `process_subject`:
`subject_output_dir = output_dir / f'sub-{subject_id}'`. -/
def subject_output_dir (output_dir subject_id : String) : String :=
  pjoin output_dir ("sub-" ++ subject_id)

/-- Embedding of line 206 of `process_subject`:
`output_file = subject_output_dir / f'sub-{subject_id}_T1w_brain.nii.gz'`. -/
def subject_output_file (output_dir subject_id : String) : String :=
  pjoin (subject_output_dir output_dir subject_id)
    ("sub-" ++ subject_id ++ "_T1w_brain.nii.gz")

/-- The metadata path targeted by `process_subject` through `save_metadata`:
`subject_output_dir / 'processing_metadata.json'`. -/
def subject_metadata_file (output_dir subject_id : String) : String :=
  pjoin (subject_output_dir output_dir subject_id) "processing_metadata.json"

/-- The part of `process_subject` that runs after the output directory has
been created: input validation, BET invocation, metadata persistence
(brain_extraction.py lines 208-222).  Returns the result and the events
emitted after the `mkdir`. -/
def process_subject_body (w : World) (bids_dir subject_id output_dir fi : String)
    (now : PyDateTime) : Except PyError String × List Event :=
  let input_file := subject_input_path bids_dir subject_id
  let sdir := subject_output_dir output_dir subject_id
  let output_file := subject_output_file output_dir subject_id
  match validate_input w.files input_file with
  | (Except.error e, logs) => (Except.error e, logs.map Event.log)
  | (Except.ok _, logs) =>
    match run_bet w.run input_file output_file fi with
    | (Except.error e, evs) => (Except.error e, logs.map Event.log ++ evs)
    | (Except.ok result_file, evs) =>
      let pm := save_metadata w sdir input_file result_file
        { fractional_intensity := fi, subject_id := subject_id } now
      (Except.ok result_file,
       logs.map Event.log ++ evs ++
         [Event.writeMeta pm.1 pm.2.timestamp,
          Event.log ("Metadata saved to: " ++ pm.1),
          Event.log ("Successfully processed sub-" ++ subject_id)])

/-- Embedding of `process_subject` (brain_extraction.py lines 180-224):

    logger.info(f"Processing subject: sub-{subject_id}")
    input_file = <BIDS path>
    if not input_file.exists(): raise FileNotFoundError(...)
    subject_output_dir.mkdir(parents=True, exist_ok=True)
    ... validate_input, run_bet, save_metadata ...

The returned trace lists the emitted events in order; it is returned whether
the run succeeds or raises. -/
def process_subject (w : World) (bids_dir subject_id output_dir fi : String)
    (now : PyDateTime) : Except PyError String × List Event :=
  let input_file := subject_input_path bids_dir subject_id
  if input_file ∈ w.files then
    let rest := process_subject_body w bids_dir subject_id output_dir fi now
    (rest.1,
     Event.log ("Processing subject: sub-" ++ subject_id) ::
       Event.mkdirP (subject_output_dir output_dir subject_id) :: rest.2)
  else
    (Except.error (PyError.fileNotFound ("Input file not found: " ++ input_file)),
     [Event.log ("Processing subject: sub-" ++ subject_id)])

/-! ### Spec-side definition for the refinement claim about the output base -/

/-- Follows the spec's words, for comparison with `pyOutputBase`: the desired
output path with "the extension stripped", i.e. a single trailing recognized
volumetric-image extension removed. -/
def output_base_spec (o : String) : String :=
  if pyEndsWith o ".nii.gz" then String.mk (o.data.take (o.data.length - 7))
  else if pyEndsWith o ".nii" then String.mk (o.data.take (o.data.length - 4))
  else o

/-! ### Concrete sample inputs used by witnesses and counterexamples -/

/-- The `software_versions` dictionary of the metadata record written by
`save_metadata`. -/
def metaVersions (w : World) (output_dir input_file output_file : String)
    (p : Params) (now : PyDateTime) : List (String × String) :=
  (save_metadata w output_dir input_file output_file p now).2.software_versions

/-- A sample `datetime.now()` value. -/
def sampleNow : PyDateTime :=
  ⟨2024, 12, 1, 10, 30, 0, 0⟩

/-- A sample parameter set. -/
def sampleParams : Params :=
  { fractional_intensity := "0.5", subject_id := "01" }

/-- A world in which the `bet -V` probe completes with exit code 1 and the
environment declares no `FSLDIR`: both version lookups fail, without the
fallback raising. -/
def worldProbeFails : World :=
  { files := []
    run := fun _ => BetOutcome.raised "no bet"
    betVersionProbe := ProbeOutcome.completed 1 ""
    env := []
    readFile := fun _ => ReadOutcome.raised
    pythonVersion := "3.11.4" }

/-- A world in which the BIDS input file for subject `01` under root `/data`
exists and the BET invocation fails with exit code 1. -/
def worldInputPresent : World :=
  { files := ["/data/sub-01/anat/sub-01_T1w.nii.gz"]
    run := fun _ => BetOutcome.completed 1 "" "bet: cannot open image" []
    betVersionProbe := ProbeOutcome.completed 1 ""
    env := []
    readFile := fun _ => ReadOutcome.raised
    pythonVersion := "3.11.4" }

/-! ### Helper lemmas: digit rendering and the ISO-8601 round trip -/

theorem data_mk (l : List Char) : (String.mk l).data = l := rfl

theorem padNum_length (w n : Nat) : (padNum w n).length = w := by
  induction w generalizing n with
  | zero => rfl
  | succ w ih => simp [padNum, ih]

theorem digitVal_digitChar (d : Nat) (h : d < 10) : digitVal (digitChar d) = d := by
  interval_cases d <;> rfl

theorem isDigitB_digitChar (d : Nat) (h : d < 10) : isDigitB (digitChar d) = true := by
  interval_cases d <;> rfl

theorem padNum_all_digits (w n : Nat) : (padNum w n).all isDigitB = true := by
  induction w generalizing n with
  | zero => rfl
  | succ w ih =>
    simp only [padNum, List.all_append, ih, Bool.true_and, List.all_cons, List.all_nil,
      Bool.and_true]
    exact isDigitB_digitChar _ (Nat.mod_lt _ (by norm_num))

theorem digitsVal_append (l : List Char) (c : Char) :
    digitsVal (l ++ [c]) = 10 * digitsVal l + digitVal c := by
  simp [digitsVal, List.foldl_append]

theorem digitsVal_padNum (w n : Nat) (h : n < 10 ^ w) : digitsVal (padNum w n) = n := by
  induction w generalizing n with
  | zero =>
    have : n = 0 := by simpa using h
    simp [this, padNum, digitsVal]
  | succ w ih =>
    have hd : n / 10 < 10 ^ w := by
      rw [Nat.div_lt_iff_lt_mul (by norm_num)]
      calc n < 10 ^ (w + 1) := h
        _ = 10 ^ w * 10 := by rw [pow_succ]
    rw [padNum, digitsVal_append, ih _ hd, digitVal_digitChar _ (Nat.mod_lt _ (by norm_num))]
    omega

theorem parseFixed_padNum (w n : Nat) (r : List Char) (h : n < 10 ^ w) :
    parseFixed w (padNum w n ++ r) = some (n, r) := by
  unfold parseFixed
  rw [List.take_left' (padNum_length w n), List.drop_left' (padNum_length w n)]
  rw [if_pos ⟨padNum_length w n, padNum_all_digits w n⟩, digitsVal_padNum w n h]

theorem expectChar_cons (c : Char) (r : List Char) : expectChar c (c :: r) = some r := by
  simp [expectChar]

theorem optBind_some {α β : Type} (a : α) (f : α → Option β) : (some a).bind f = f a := rfl

theorem parseMicro_microSuffix (us : Nat) (h : us ≤ 999999) :
    parseMicro (microSuffix us) = some us := by
  unfold microSuffix
  by_cases h0 : us = 0
  · simp [h0, parseMicro]
  · rw [if_neg h0]
    have hlt : us < 10 ^ 6 := by
      have : (10 : Nat) ^ 6 = 1000000 := by norm_num
      omega
    show (parseFixed 6 (padNum 6 us)).bind _ = some us
    rw [← List.append_nil (padNum 6 us), parseFixed_padNum 6 us [] hlt]
    simp

theorem fromisoformat_isoformat (d : PyDateTime) (h : d.valid) :
    fromisoformat (isoformat d) = some d := by
  obtain ⟨h1, h2, h3, h4, h5, h6, h7, h8, h9, h10⟩ := h
  have e4 : (10 : Nat) ^ 4 = 10000 := by norm_num
  have e2 : (10 : Nat) ^ 2 = 100 := by norm_num
  have hy : ∀ r, parseFixed 4 (padNum 4 d.year ++ r) = some (d.year, r) :=
    fun r => parseFixed_padNum 4 d.year r (by omega)
  have hmo : ∀ r, parseFixed 2 (padNum 2 d.month ++ r) = some (d.month, r) :=
    fun r => parseFixed_padNum 2 d.month r (by omega)
  have hda : ∀ r, parseFixed 2 (padNum 2 d.day ++ r) = some (d.day, r) :=
    fun r => parseFixed_padNum 2 d.day r (by omega)
  have hh : ∀ r, parseFixed 2 (padNum 2 d.hour ++ r) = some (d.hour, r) :=
    fun r => parseFixed_padNum 2 d.hour r (by omega)
  have hmi : ∀ r, parseFixed 2 (padNum 2 d.minute ++ r) = some (d.minute, r) :=
    fun r => parseFixed_padNum 2 d.minute r (by omega)
  have hs : ∀ r, parseFixed 2 (padNum 2 d.second ++ r) = some (d.second, r) :=
    fun r => parseFixed_padNum 2 d.second r (by omega)
  have hv : PyDateTime.valid ⟨d.year, d.month, d.day, d.hour, d.minute, d.second,
      d.microsecond⟩ := by
    exact ⟨h1, h2, h3, h4, h5, h6, h7, h8, h9, h10⟩
  simp only [fromisoformat, isoformat, data_mk, hy, optBind_some, expectChar_cons, hmo,
    hda, hh, hmi, hs, parseMicro_microSuffix d.microsecond h10, mkValidated, hv, if_true]

/-! ### Helper lemmas: association-list lookups and suffixes -/

theorem lookupKV_single_ne (k k2 v : String) (h : k2 ≠ k) :
    lookupKV k [(k2, v)] = none := by
  simp [lookupKV, h]

theorem lookupKV_append_none (k : String) (l1 l2 : List (String × String))
    (h : lookupKV k l1 = none) : lookupKV k (l1 ++ l2) = lookupKV k l2 := by
  induction l1 with
  | nil => rfl
  | cons p rest ih =>
    obtain ⟨k2, v⟩ := p
    rw [List.cons_append]
    by_cases he : k2 = k
    · simp [lookupKV, he] at h
    · simp only [lookupKV, if_neg he] at h ⊢
      exact ih h

theorem lookupKV_fsl_entries_python (w : World) :
    lookupKV "python" (fsl_version_entries w) = none := by
  unfold fsl_version_entries
  cases w.betVersionProbe with
  | completed rc out =>
    simp only []
    by_cases h : rc = 0
    · rw [if_pos h]
      exact lookupKV_single_ne _ _ _ (by decide)
    · rw [if_neg h]
      rfl
  | raised =>
    cases lookupKV "FSLDIR" w.env with
    | none => rfl
    | some fsldir =>
      simp only []
      by_cases h : fslVersionPath fsldir ∈ w.files
      · rw [if_pos h]
        cases w.readFile (fslVersionPath fsldir) with
        | ok content => exact lookupKV_single_ne _ _ _ (by decide)
        | raised => exact lookupKV_single_ne _ _ _ (by decide)
      · rw [if_neg h]
        rfl

theorem lookupKV_python_meta (w : World) (output_dir input_file output_file : String)
    (p : Params) (now : PyDateTime) :
    lookupKV "python" (metaVersions w output_dir input_file output_file p now) =
      some w.pythonVersion := by
  unfold metaVersions save_metadata
  rw [lookupKV_append_none _ _ _ (lookupKV_fsl_entries_python w)]
  simp [lookupKV]

theorem suffix_append_left {α : Type} {l l2 : List α} (l1 : List α) (h : l <:+ l2) :
    l <:+ l1 ++ l2 :=
  h.trans (List.suffix_append l1 l2)

theorem subject_input_path_ends (bids_dir subject_id : String) :
    pyEndsWith (subject_input_path bids_dir subject_id) ".nii.gz" = true := by
  unfold pyEndsWith subject_input_path pjoin
  rw [decide_eq_true_eq]
  simp only [String.data_append]
  exact suffix_append_left _ (suffix_append_left _ (by decide))

/-! ### C7: missing input fails with FileNotFoundError before any logging -/

/-- C7 (confirmed): for every non-existent input path, `validate_input` raises
the "not found" condition (`FileNotFoundError`) with the exact message of the
source, and its emitted log-line list is empty — no logging occurred before
the failure. -/
theorem validate_input_not_found (fs : List String) (p : String) (h : p ∉ fs) :
    validate_input fs p =
      (Except.error (PyError.fileNotFound ("Input file not found: " ++ p)), []) := by
  simp [validate_input, h]

/-- Witness for C7: `validate_input` on a concrete missing path. -/
theorem validate_input_not_found_witness :
    ("/data/missing.nii.gz" ∉ ([] : List String)) ∧
      validate_input [] "/data/missing.nii.gz" =
        (Except.error
          (PyError.fileNotFound ("Input file not found: " ++ "/data/missing.nii.gz")), []) :=
  ⟨by decide, validate_input_not_found [] "/data/missing.nii.gz" (by decide)⟩

/-! ### C2: unrecognized extension fails with ValueError -/

/-- Counterexample for C2 as stated: the path `/tmp/bad.txt` does not end in
either recognized suffix, yet on a filesystem where it does not exist
`validate_input` raises `FileNotFoundError`, not `ValueError` — the existence
check runs first. -/
theorem validate_input_nonexistent_bad_ext :
    pyEndsWith "/tmp/bad.txt" ".nii" = false ∧
    pyEndsWith "/tmp/bad.txt" ".nii.gz" = false ∧
    exceptKind (validate_input [] "/tmp/bad.txt").1 = some "FileNotFoundError" ∧
    exceptKind (validate_input [] "/tmp/bad.txt").1 ≠ some "ValueError" := by
  decide

/-- C2 (corrected): for every existing input path whose filename does not end
in `.nii` or `.nii.gz`, `validate_input` fails with the "invalid format"
condition (`ValueError`), with the exact message of the source and no logging. -/
theorem validate_input_invalid_format (fs : List String) (p : String) (h1 : p ∈ fs)
    (h2 : pyEndsWith p ".nii" = false) (h3 : pyEndsWith p ".nii.gz" = false) :
    validate_input fs p =
      (Except.error (PyError.valueError
        ("Input must be a NIfTI file (.nii or .nii.gz), got: " ++ p)), []) := by
  simp [validate_input, h1, h2, h3]

/-- Witness for C2: an existing `.txt` file is rejected with `ValueError`. -/
theorem validate_input_invalid_format_witness :
    ("/tmp/bad.txt" ∈ ["/tmp/bad.txt"]) ∧
      validate_input ["/tmp/bad.txt"] "/tmp/bad.txt" =
        (Except.error (PyError.valueError
          ("Input must be a NIfTI file (.nii or .nii.gz), got: " ++ "/tmp/bad.txt")), []) :=
  ⟨by decide,
    validate_input_invalid_format ["/tmp/bad.txt"] "/tmp/bad.txt" (by decide) (by decide)
      (by decide)⟩

/-! ### C5: non-zero exit fails with RuntimeError carrying stderr -/

/-- C5 (confirmed): whenever the BET subprocess completes with a non-zero
return code (in particular 1), `run_bet` fails with the "tool execution
failed" condition (`RuntimeError`) whose message carries the captured
standard-error text verbatim. -/
theorem run_bet_nonzero_exit (run : List String → BetOutcome) (i o fi : String)
    (rc : Int) (out err : String) (files : List String)
    (hrun : run (bet_command i o fi) = BetOutcome.completed rc out err files)
    (hrc : rc ≠ 0) :
    (run_bet run i o fi).1 =
      Except.error (PyError.runtimeError ("Brain extraction failed: " ++ err)) := by
  simp [run_bet, hrun, hrc]

/-- Witness for C5: exit code 1 with a concrete standard-error text. -/
theorem run_bet_nonzero_exit_witness :
    (run_bet (fun _ => BetOutcome.completed 1 "" "bet: boom" []) "in.nii.gz" "out.nii.gz"
        "0.5").1 =
      Except.error (PyError.runtimeError ("Brain extraction failed: " ++ "bet: boom")) :=
  run_bet_nonzero_exit _ "in.nii.gz" "out.nii.gz" "0.5" 1 "" "bet: boom" [] rfl (by decide)

/-! ### C4: output probing after a successful exit -/

/-- C4 (confirmed): when the BET subprocess exits successfully, `run_bet`
returns exactly `<base>.nii.gz` when that artifact exists, and fails with the
"output missing" condition (`FileNotFoundError`) when neither `<base>.nii.gz`
nor `<base>.nii` exists. -/
theorem run_bet_output_probe (run : List String → BetOutcome) (i o fi : String)
    (out err : String) (files : List String)
    (hrun : run (bet_command i o fi) = BetOutcome.completed 0 out err files) :
    ((pyOutputBase o ++ ".nii.gz") ∈ files →
      (run_bet run i o fi).1 = Except.ok (pyOutputBase o ++ ".nii.gz")) ∧
    ((pyOutputBase o ++ ".nii.gz") ∉ files → (pyOutputBase o ++ ".nii") ∉ files →
      (run_bet run i o fi).1 =
        Except.error
          (PyError.fileNotFound ("BET output file not found: " ++ pyOutputBase o))) := by
  constructor
  · intro hmem
    simp [run_bet, hrun, hmem]
  · intro hno1 hno2
    simp [run_bet, hrun, hno1, hno2]

/-- Witness for C4: both the present-artifact and missing-artifact cases at
concrete inputs. -/
theorem run_bet_output_probe_witness :
    ((pyOutputBase "b.nii.gz" ++ ".nii.gz") ∈ ["b.nii.gz"]) ∧
    (run_bet (fun _ => BetOutcome.completed 0 "" "" ["b.nii.gz"]) "a.nii.gz" "b.nii.gz"
        "0.5").1 =
      Except.ok (pyOutputBase "b.nii.gz" ++ ".nii.gz") ∧
    (run_bet (fun _ => BetOutcome.completed 0 "" "" []) "a.nii.gz" "b.nii.gz" "0.5").1 =
      Except.error
        (PyError.fileNotFound ("BET output file not found: " ++ pyOutputBase "b.nii.gz")) :=
  ⟨by decide,
    (run_bet_output_probe _ "a.nii.gz" "b.nii.gz" "0.5" "" "" ["b.nii.gz"] rfl).1 (by decide),
    (run_bet_output_probe _ "a.nii.gz" "b.nii.gz" "0.5" "" "" [] rfl).2 (by decide)
      (by decide)⟩

/-! ### C3: the exact BET command line -/

/-- Counterexample for C3 as stated: for the desired output path
`x.nii.nii.gz`, the script's base is `x` (Python `str.replace` removes every
occurrence of `.nii.gz` and then of `.nii`), while stripping only the trailing
volumetric-image extension, as the spec words say, would give `x.nii`; the
invoked command therefore differs from `bet <input> <suffix-stripped> -f <t> -R`. -/
theorem bet_command_not_spec_strip :
    bet_command "in.nii.gz" "x.nii.nii.gz" "0.5" = ["bet", "in.nii.gz", "x", "-f", "0.5", "-R"] ∧
    output_base_spec "x.nii.nii.gz" = "x.nii" ∧
    bet_command "in.nii.gz" "x.nii.nii.gz" "0.5" ≠
      ["bet", "in.nii.gz", output_base_spec "x.nii.nii.gz", "-f", "0.5", "-R"] := by
  decide

/-- C3 (corrected): for every input path, desired output path and threshold,
`run_bet` performs exactly one subprocess invocation, namely
`bet <input> <base> -f <threshold> -R`, where `<base>` is the desired output
path with every occurrence of `.nii.gz` and then every occurrence of `.nii`
removed (which equals stripping the extension whenever the recognized suffix
occurs only at the end of the path). -/
theorem run_bet_command_shape (run : List String → BetOutcome) (i o fi : String) :
    subprocCmds (run_bet run i o fi).2 = [bet_command i o fi] ∧
    bet_command i o fi =
      ["bet", i, pyReplace (pyReplace o ".nii.gz" "") ".nii" "", "-f", fi, "-R"] := by
  refine ⟨?_, rfl⟩
  rcases hr : run (bet_command i o fi) with ⟨rc, out, err, files⟩ | msg
  · by_cases h : rc = 0
    · by_cases h1 : (pyOutputBase o ++ ".nii.gz") ∈ files
      · simp [run_bet, hr, h, h1, subprocCmds]
      · by_cases h2 : (pyOutputBase o ++ ".nii") ∈ files <;>
          simp [run_bet, hr, h, h1, h2, subprocCmds]
    · simp [run_bet, hr, h, subprocCmds]
  · simp [run_bet, hr, subprocCmds]

/-! ### C9: the ValueError branch is unreachable from process_subject -/

/-- C9 (confirmed): the input path constructed by `process_subject` always
ends in `.nii.gz`, so on any filesystem, `validate_input` applied to it never
raises `ValueError` — the "invalid format" branch is unreachable from
`process_subject`. -/
theorem process_subject_validate_no_value_error (bids_dir subject_id : String)
    (fs : List String) :
    pyEndsWith (subject_input_path bids_dir subject_id) ".nii.gz" = true ∧
    exceptKind (validate_input fs (subject_input_path bids_dir subject_id)).1 ≠
      some "ValueError" := by
  refine ⟨subject_input_path_ends bids_dir subject_id, ?_⟩
  by_cases h : subject_input_path bids_dir subject_id ∈ fs
  · simp [validate_input, h, subject_input_path_ends, exceptKind]
  · simp [validate_input, h, exceptKind, PyError.kind]

/-! ### C6: the BIDS filesystem layout -/

/-- C6 (confirmed): for every root directory and subject identifier,
`process_subject` resolves its input at
`<input_root>/sub-<id>/anat/sub-<id>_T1w.nii.gz` and targets the outputs
`<output_root>/sub-<id>/sub-<id>_T1w_brain.nii.gz` and
`<output_root>/sub-<id>/processing_metadata.json`. -/
theorem process_subject_layout (bids_dir output_dir subject_id : String) :
    subject_input_path bids_dir subject_id =
      bids_dir ++ "/sub-" ++ subject_id ++ "/anat/sub-" ++ subject_id ++ "_T1w.nii.gz" ∧
    subject_output_file output_dir subject_id =
      output_dir ++ "/sub-" ++ subject_id ++ "/sub-" ++ subject_id ++ "_T1w_brain.nii.gz" ∧
    subject_metadata_file output_dir subject_id =
      output_dir ++ "/sub-" ++ subject_id ++ "/processing_metadata.json" := by
  have l1 : ("/sub-" : String) = "/" ++ "sub-" := by decide
  have l2 : ("/anat/sub-" : String) = "/" ++ ("anat" ++ ("/" ++ "sub-")) := by decide
  have l3 : ("/processing_metadata.json" : String) = "/" ++ "processing_metadata.json" := by
    decide
  refine ⟨?_, ?_, ?_⟩ <;>
    simp only [subject_input_path, subject_output_file, subject_metadata_file,
      subject_output_dir, pjoin, l1, l2, l3, String.append_assoc]

/-! ### C10: the per-subject output directory is created first -/

/-- C10 (confirmed): whenever the resolved input file exists, the trace of
`process_subject` starts with the opening log line followed immediately by the
creation of `<output_root>/sub-<id>` — before any validation, subprocess or
metadata event — and the `mkdir` event is in the trace whatever the final
outcome (the trace is returned for failing runs too, and no event ever removes
a directory: there is no rollback). -/
theorem process_subject_mkdir_before (w : World) (bids_dir subject_id output_dir fi : String)
    (now : PyDateTime) (h : subject_input_path bids_dir subject_id ∈ w.files) :
    (∃ rest, (process_subject w bids_dir subject_id output_dir fi now).2 =
      Event.log ("Processing subject: sub-" ++ subject_id) ::
        Event.mkdirP (subject_output_dir output_dir subject_id) :: rest) ∧
    Event.mkdirP (subject_output_dir output_dir subject_id) ∈
      (process_subject w bids_dir subject_id output_dir fi now).2 := by
  simp only [process_subject]
  rw [if_pos h]
  exact ⟨⟨_, rfl⟩, by simp⟩

/-- Witness for C10: a concrete world whose BET invocation fails with exit
code 1; the directory-creation event is still second in the trace. -/
theorem process_subject_mkdir_before_witness :
    (subject_input_path "/data" "01" ∈ worldInputPresent.files) ∧
    ((∃ rest, (process_subject worldInputPresent "/data" "01" "/out" "0.5" sampleNow).2 =
      Event.log ("Processing subject: sub-" ++ "01") ::
        Event.mkdirP (subject_output_dir "/out" "01") :: rest) ∧
    Event.mkdirP (subject_output_dir "/out" "01") ∈
      (process_subject worldInputPresent "/data" "01" "/out" "0.5" sampleNow).2) :=
  ⟨by decide,
    process_subject_mkdir_before worldInputPresent "/data" "01" "/out" "0.5" sampleNow
      (by decide)⟩

/-! ### C1: best-effort version detection in save_metadata -/

/-- Counterexample for C1 as stated: in a world where the `bet -V` probe
completes with exit code 1 (primary lookup fails) and the environment declares
no `FSLDIR` (fallback lookup fails), the written software-versions map is just
the interpreter entry — no `"unknown"` sentinel is recorded anywhere. -/
theorem save_metadata_probe_failure_no_sentinel :
    worldProbeFails.betVersionProbe = ProbeOutcome.completed 1 "" ∧
    lookupKV "FSLDIR" worldProbeFails.env = none ∧
    metaVersions worldProbeFails "/out/sub-01" "/in.nii.gz" "/out/sub-01/b.nii.gz"
      sampleParams sampleNow = [("python", "3.11.4")] := by
  refine ⟨rfl, rfl, ?_⟩
  decide

/-- C1 (corrected): `save_metadata` never raises on version-detection failure
(its embedding is total over every world, including ones where the probe and
the read raise), but it degrades to `"unknown"` only when the primary probe
raises and the `FSLDIR` fallback read itself raises.  Full case analysis of
the written software-versions map: a probe completing with exit code 0
records `fsl_bet`; a probe completing with non-zero exit records nothing; a
raising probe with no `FSLDIR`, or with a missing version file, records
nothing; a raising probe with a readable version file records `fsl`; and only
a raising probe whose version-file read also raises records
`("fsl", "unknown")`.  The interpreter entry is always present. -/
theorem save_metadata_version_detection (w : World)
    (output_dir input_file output_file : String) (p : Params) (now : PyDateTime)
    (rc : Int) (out fsldir content : String) :
    (lookupKV "python" (metaVersions w output_dir input_file output_file p now) =
      some w.pythonVersion) ∧
    (w.betVersionProbe = ProbeOutcome.completed rc out → rc = 0 →
      metaVersions w output_dir input_file output_file p now =
        [("fsl_bet", out.trim), ("python", w.pythonVersion)]) ∧
    (w.betVersionProbe = ProbeOutcome.completed rc out → rc ≠ 0 →
      metaVersions w output_dir input_file output_file p now =
        [("python", w.pythonVersion)]) ∧
    (w.betVersionProbe = ProbeOutcome.raised → lookupKV "FSLDIR" w.env = none →
      metaVersions w output_dir input_file output_file p now =
        [("python", w.pythonVersion)]) ∧
    (w.betVersionProbe = ProbeOutcome.raised → lookupKV "FSLDIR" w.env = some fsldir →
      fslVersionPath fsldir ∉ w.files →
      metaVersions w output_dir input_file output_file p now =
        [("python", w.pythonVersion)]) ∧
    (w.betVersionProbe = ProbeOutcome.raised → lookupKV "FSLDIR" w.env = some fsldir →
      fslVersionPath fsldir ∈ w.files →
      w.readFile (fslVersionPath fsldir) = ReadOutcome.ok content →
      metaVersions w output_dir input_file output_file p now =
        [("fsl", content.trim), ("python", w.pythonVersion)]) ∧
    (w.betVersionProbe = ProbeOutcome.raised → lookupKV "FSLDIR" w.env = some fsldir →
      fslVersionPath fsldir ∈ w.files →
      w.readFile (fslVersionPath fsldir) = ReadOutcome.raised →
      metaVersions w output_dir input_file output_file p now =
        [("fsl", "unknown"), ("python", w.pythonVersion)]) := by
  refine ⟨lookupKV_python_meta w output_dir input_file output_file p now,
    ?_, ?_, ?_, ?_, ?_, ?_⟩
  · intro hb h0
    simp [metaVersions, save_metadata, fsl_version_entries, hb, h0]
  · intro hb h0
    simp [metaVersions, save_metadata, fsl_version_entries, hb, h0]
  · intro hb he
    simp [metaVersions, save_metadata, fsl_version_entries, hb, he]
  · intro hb he hf
    simp [metaVersions, save_metadata, fsl_version_entries, hb, he, hf]
  · intro hb he hf hr
    simp [metaVersions, save_metadata, fsl_version_entries, hb, he, hf, hr]
  · intro hb he hf hr
    simp [metaVersions, save_metadata, fsl_version_entries, hb, he, hf, hr]

/-- Witness for C1: the nonzero-probe case at a concrete world. -/
theorem save_metadata_version_detection_witness :
    metaVersions worldProbeFails "/out" "/i.nii.gz" "/o.nii.gz" sampleParams sampleNow =
      [("python", worldProbeFails.pythonVersion)] :=
  (save_metadata_version_detection worldProbeFails "/out" "/i.nii.gz" "/o.nii.gz"
      sampleParams sampleNow 1 "" "" "").2.2.1 rfl (by decide)

/-! ### C8: the metadata record's guaranteed fields -/

/-- C8 (confirmed): for every world, output directory, input/output path,
parameter set and (valid) current datetime, the metadata record written by
`save_metadata` carries an ISO-8601 timestamp that parses back to exactly the
datetime it was produced from, the literal input and output path strings, and
a `python` software-version entry holding the interpreter's version. -/
theorem save_metadata_record_fields (w : World)
    (output_dir input_file output_file : String) (p : Params) (now : PyDateTime)
    (h : now.valid) :
    fromisoformat (save_metadata w output_dir input_file output_file p now).2.timestamp =
      some now ∧
    (save_metadata w output_dir input_file output_file p now).2.input_file = input_file ∧
    (save_metadata w output_dir input_file output_file p now).2.output_file = output_file ∧
    lookupKV "python"
        (save_metadata w output_dir input_file output_file p now).2.software_versions =
      some w.pythonVersion := by
  refine ⟨?_, rfl, rfl, lookupKV_python_meta w output_dir input_file output_file p now⟩
  show fromisoformat (isoformat now) = some now
  exact fromisoformat_isoformat now h

/-- Witness for C8: the metadata record at a concrete world and datetime. -/
theorem save_metadata_record_fields_witness :
    sampleNow.valid ∧
    (fromisoformat
        (save_metadata worldProbeFails "/out" "/i.nii.gz" "/o.nii.gz" sampleParams
          sampleNow).2.timestamp = some sampleNow ∧
      (save_metadata worldProbeFails "/out" "/i.nii.gz" "/o.nii.gz" sampleParams
          sampleNow).2.input_file = "/i.nii.gz" ∧
      (save_metadata worldProbeFails "/out" "/i.nii.gz" "/o.nii.gz" sampleParams
          sampleNow).2.output_file = "/o.nii.gz" ∧
      lookupKV "python"
          (save_metadata worldProbeFails "/out" "/i.nii.gz" "/o.nii.gz" sampleParams
            sampleNow).2.software_versions = some worldProbeFails.pythonVersion) :=
  ⟨by decide,
    save_metadata_record_fields worldProbeFails "/out" "/i.nii.gz" "/o.nii.gz" sampleParams
      sampleNow (by decide)⟩
